import Mathlib

/-!
Verification development for the persistent-agent state engine
(`nibr/canvas/scripts/persistent_agent.py`).

The Python module is shallowly embedded: dictionaries become association
lists with Python-dict insertion semantics (update-in-place keeps the
original slot, a new key is appended), file-system state becomes an explicit
map from structured paths to file contents, exceptions become an explicit
`PyResult` sum, and the opaque external pieces (`dill`, `inspect.getsource`,
`exec`, the base `A1` execution provider) are abstracted as fields of a
`Callable` / `DecodeEnv` record, since their outcomes are data the embedded
code merely branches on.
-/

namespace Spec2Proof

/-! ### Python dictionaries as association lists -/

/-- Python `d[k] = v`: if the key is present, the value is replaced in place
(the entry keeps its insertion position); otherwise the pair is appended. -/
def dinsert {κ α : Type} [DecidableEq κ] : List (κ × α) → κ → α → List (κ × α)
  | [], k, v => [(k, v)]
  | (k0, v0) :: rest, k, v =>
    if k0 = k then (k, v) :: rest else (k0, v0) :: dinsert rest k v

/-- Python `d.get(k)` / `k in d` combined: lookup by key. -/
def dget {κ α : Type} [DecidableEq κ] : List (κ × α) → κ → Option α
  | [], _ => none
  | (k0, v0) :: rest, k => if k0 = k then some v0 else dget rest k

/-- Python `del d[k]` (no error if absent; keys are unique by construction). -/
def dremove {κ α : Type} [DecidableEq κ] : List (κ × α) → κ → List (κ × α)
  | [], _ => []
  | (k0, v0) :: rest, k => if k0 = k then rest else (k0, v0) :: dremove rest k

/-- Python `d.update(d2)`: fold `dinsert` over the second dict's entries. -/
def dupdate {κ α : Type} [DecidableEq κ] (m m2 : List (κ × α)) : List (κ × α) :=
  m2.foldl (fun acc p => dinsert acc p.1 p.2) m

/-- Python `list(d.keys())`. -/
def dkeys {κ α : Type} (m : List (κ × α)) : List κ := m.map Prod.fst

theorem dget_dinsert_self {κ α : Type} [DecidableEq κ] (m : List (κ × α)) (k : κ) (v : α) :
    dget (dinsert m k v) k = some v := by
  induction m with
  | nil => simp [dinsert, dget]
  | cons hd tl ih =>
    obtain ⟨k0, v0⟩ := hd
    by_cases h : k0 = k
    · simp [dinsert, dget, h]
    · simp [dinsert, dget, h, ih]

theorem dget_dinsert_ne {κ α : Type} [DecidableEq κ] (m : List (κ × α)) (k q : κ) (v : α)
    (h : q ≠ k) : dget (dinsert m k v) q = dget m q := by
  have hk : ¬(k = q) := fun hh => h hh.symm
  induction m with
  | nil => simp [dinsert, dget, hk]
  | cons hd tl ih =>
    obtain ⟨k0, v0⟩ := hd
    by_cases h0 : k0 = k
    · subst h0
      simp [dinsert, dget, hk]
    · simp only [dinsert, if_neg h0, dget]
      by_cases hq : k0 = q
      · simp [hq]
      · simp [hq, ih]

/-! ### Exceptions and the opaque external operations

`PyResult α` is the outcome of a Python call that can raise: either a normal
value or an exception message.  A `Callable` is an opaque function object
together with the (data-determined) outcomes of the two external operations
the serializer applies to it: `dill.dumps` (the base64-encoded blob on
success) and `inspect.getsource`.  Behaviour of the callable itself is never
inspected by the embedded code, so it needs no representation. -/

inductive PyResult (α : Type) where
  | ok (val : α)
  | exn (msg : String)
deriving DecidableEq, Repr

structure Callable where
  name : String
  doc : Option String
  module : Option String
  qualname : Option String
  dillDump : PyResult String
  getsource : PyResult String
deriving DecidableEq, Repr

/-! ### ToolSerializationEngine -/

inductive SerMethod where
  | dill
  | source_code
  | metadata_only
deriving DecidableEq, Repr

/-- The metadata dictionary produced by `serialize_function` /
`_fallback_serialization`.  `Option` fields model key absence; for
`source_code` the outer `Option` is key presence and the inner one is the
Python value `None` (the dill tier stores `None` when source retrieval
fails).  The `annotations` entry of the Python dict is elided: no claim
mentions it and it is carried verbatim. -/
structure ToolRecord where
  name : String
  doc : String
  module : Option String
  qualname : Option String
  serialization_method : SerMethod
  serialized_data : Option String
  source_code : Option (Option String)
  error : Option String
  timestamp : Nat
deriving DecidableEq, Repr

/-- `ToolSerializationEngine._fallback_serialization`. -/
def fallback_serialization (func : Callable) (now : Nat) : ToolRecord :=
  match func.getsource with
  | .ok src =>
      { name := func.name, doc := func.doc.getD "",
        module := none, qualname := none,
        serialization_method := .source_code,
        serialized_data := none, source_code := some (some src),
        error := none, timestamp := now }
  | .exn e =>
      { name := func.name, doc := func.doc.getD "",
        module := none, qualname := none,
        serialization_method := .metadata_only,
        serialized_data := none, source_code := none,
        error := some e, timestamp := now }

/-- `ToolSerializationEngine.serialize_function`: try dill first; on an
exception fall back to `_fallback_serialization`.  The base64 encoding of the
dill bytes is left abstract inside `dillDump`'s payload string. -/
def serialize_function (func : Callable) (now : Nat) : ToolRecord :=
  match func.dillDump with
  | .ok payload =>
      { name := func.name, doc := func.doc.getD "",
        module := func.module, qualname := func.qualname,
        serialization_method := .dill,
        serialized_data := some payload,
        source_code := some (match func.getsource with | .ok s => some s | .exn _ => none),
        error := none, timestamp := now }
  | .exn _ => fallback_serialization func now

/-- Environment for decoding: the outcomes of `dill.loads` on a payload and
of `exec`-ing a source snippet.  `exec` yields the resulting globals as a
map from name to `some f` for a callable binding and `none` for a
non-callable one. -/
structure DecodeEnv where
  dillLoads : String → PyResult Callable
  execSource : String → PyResult (List (String × Option Callable))

/-- The body of `ToolSerializationEngine.deserialize_function` before the
surrounding `try/except`: any raised exception is an `.exn` outcome. -/
def deserialize_function_body (env : DecodeEnv) (metadata : ToolRecord) :
    PyResult (Option Callable) :=
  match metadata.serialization_method with
  | .dill =>
    match metadata.serialized_data with
    | none => .exn "KeyError: serialized_data"
    | some payload =>
      match env.dillLoads payload with
      | .ok func => .ok (some func)
      | .exn e => .exn e
  | .source_code =>
    match metadata.source_code with
    | none => .exn "KeyError: source_code"
    | some none => .ok none
    | some (some src) =>
      if src = "" then .ok none
      else
        match env.execSource src with
        | .exn e => .exn e
        | .ok globs =>
          match dget globs metadata.name with
          | some (some func) => .ok (some func)
          | _ => .ok none
  | .metadata_only => .ok none

/-- `ToolSerializationEngine.deserialize_function`: the body wrapped in the
catch-all `except` clause, which logs and returns `None`. -/
def deserialize_function (env : DecodeEnv) (metadata : ToolRecord) : Option Callable :=
  match deserialize_function_body env metadata with
  | .ok r => r
  | .exn _ => none

/-! ### File system model

A path is its directory components plus `pathlib`'s stem/suffix split, which
is exactly the granularity the module uses (`f"NAME.json"`,
`with_suffix(".tmp")`, `glob("*.json")`, `.stem`).  A file's content is
either a complete serialized state document or a truncated prefix of one
(the observable result of a write interrupted after `bytes` chunks). -/

structure FPath where
  dir : List String
  stem : String
  ext : String
deriving DecidableEq, Repr

/-- The `agent_config` block of the state document. -/
structure AgentConfig where
  path : String
  llm : String
  use_tool_retriever : Bool
  timeout_seconds : Nat
deriving DecidableEq, Repr

/-- The JSON document written by `_save_persistent_state`.  `json.dump` is
deterministic on a given dict (insertion order preserved), so byte-for-byte
file equality is equality of these documents. -/
structure SavedState where
  agent_id : String
  timestamp : Nat
  agent_config : AgentConfig
  custom_tools : List (String × ToolRecord)
  custom_data : List (String × String)
  custom_software : List (String × String)
  version : String
deriving DecidableEq, Repr

/-- The JSON document written by `export_state` (no `agent_config`,
`export_version` in place of `version`); this is also what `import_state`
parses back. -/
structure ExportedState where
  agent_id : String
  timestamp : Nat
  custom_tools : List (String × ToolRecord)
  custom_data : List (String × String)
  custom_software : List (String × String)
  export_version : String
deriving DecidableEq, Repr

inductive FileContent where
  | complete (doc : SavedState)
  | truncatedWrite (bytes : Nat) (doc : SavedState)
deriving DecidableEq, Repr

/-- The file system: a Python-dict-like map from paths to contents. -/
abbrev FS : Type := List (FPath × FileContent)

/-- `os.replace` / `Path.replace`: atomically rename `src` onto `dst`
(overwriting `dst`).  A no-op if `src` does not exist (never the case on the
traces below). -/
def renameFile (fs : FS) (src dst : FPath) : FS :=
  match dget fs src with
  | none => fs
  | some c => dinsert (dremove fs src) dst c

/-! ### PersistentA1: the agent state container

Python's conditional `hasattr(self, '_custom_*')` attributes are conflated
with possibly-empty lists (an absent attribute behaves like an empty dict in
every code path a claim touches).  The `super().__init__` call, directory
creation, logging, and the biomni tool-registry forwarding are external
side effects with no bearing on the persisted state and are elided. -/

structure PersistentA1 where
  agent_id : String
  state_dir : List String
  auto_save_enabled : Bool
  state_dirty : Bool
  custom_tools : List (String × Callable)
  custom_data : List (String × String)
  custom_software : List (String × String)
  config : AgentConfig
deriving DecidableEq, Repr

/-- `self.state_file = self.state_dir / f"NAME.json"`. -/
def state_file (a : PersistentA1) : FPath :=
  { dir := a.state_dir, stem := a.agent_id, ext := "json" }

/-- `self.state_file.with_suffix('.tmp')`: the temporary sibling file. -/
def temp_file (a : PersistentA1) : FPath :=
  { dir := a.state_dir, stem := a.agent_id, ext := "tmp" }

/-- `_serialize_custom_tools`: serialize every tracked tool (the model's
`serialize_function` is total, so the per-tool `except` never fires). -/
def serialize_custom_tools (a : PersistentA1) (now : Nat) : List (String × ToolRecord) :=
  a.custom_tools.map fun p => (p.1, serialize_function p.2 now)

/-- The `state` dict built inside `_save_persistent_state`. -/
def stateDocOf (a : PersistentA1) (now : Nat) : SavedState :=
  { agent_id := a.agent_id,
    timestamp := now,
    agent_config := a.config,
    custom_tools := serialize_custom_tools a now,
    custom_data := a.custom_data,
    custom_software := a.custom_software,
    version := "1.0" }

/-- `_save_persistent_state`, whole-operation view: gated on
`_auto_save_enabled`; writes the document to the `.tmp` sibling, renames it
over the canonical file, clears the dirty flag. -/
def save_persistent_state (a : PersistentA1) (fs : FS) (now : Nat) : PersistentA1 × FS :=
  if a.auto_save_enabled then
    let doc := stateDocOf a now
    let fs1 := dinsert fs (temp_file a) (FileContent.complete doc)
    let fs2 := renameFile fs1 (temp_file a) (state_file a)
    ({ a with state_dirty := false }, fs2)
  else (a, fs)

/-- `save_state` (the public manual save) just calls
`_save_persistent_state`. -/
def save_state (a : PersistentA1) (fs : FS) (now : Nat) : PersistentA1 × FS :=
  save_persistent_state a fs now

/-! ### Micro-step trace of `_save_persistent_state`

For the atomicity claim the save is decomposed into its externally visible
file-system steps: `chunks + 1` successive writes that leave the `.tmp` file
holding ever longer truncated prefixes (the last write completing it),
followed by the single atomic rename.  Interrupting the save after `k` steps
is running only the first `k` operations. -/

inductive SaveOp where
  | writeChunk (p : FPath) (c : FileContent)
  | renameStep (src dst : FPath)
deriving DecidableEq, Repr

def applySaveOp (fs : FS) (op : SaveOp) : FS :=
  match op with
  | .writeChunk p c => dinsert fs p c
  | .renameStep src dst => renameFile fs src dst

def runSaveOps (fs : FS) (ops : List SaveOp) : FS := ops.foldl applySaveOp fs

def saveOps (a : PersistentA1) (now : Nat) (chunks : Nat) : List SaveOp :=
  if a.auto_save_enabled then
    ((List.range (chunks + 1)).map fun i =>
        SaveOp.writeChunk (temp_file a)
          (if i = chunks then FileContent.complete (stateDocOf a now)
           else FileContent.truncatedWrite i (stateDocOf a now)))
      ++ [SaveOp.renameStep (temp_file a) (state_file a)]
  else []

/-! ### Restore / import / export -/

/-- `_restore_custom_tools`: deserialize each record; only successfully
decoded callables are entered into `_custom_tools`. -/
def restore_custom_tools (env : DecodeEnv) (tools_data : List (String × ToolRecord))
    (a : PersistentA1) : PersistentA1 :=
  tools_data.foldl
    (fun acc p =>
      match deserialize_function env p.2 with
      | some func => { acc with custom_tools := dinsert acc.custom_tools p.1 func }
      | none => acc) a

/-- `_load_persistent_state`: nothing on a missing file; a truncated file
raises inside `json.load`, the exception is caught, and the state stays
fresh; a complete file restores tools (filtered by decodability), data and
software (`_restore_agent_config` only stashes `_original_config`, which no
claim observes, so it is elided). -/
def load_persistent_state (env : DecodeEnv) (a : PersistentA1) (fs : FS) : PersistentA1 :=
  match dget fs (state_file a) with
  | none => a
  | some (.truncatedWrite _ _) => a
  | some (.complete doc) =>
      let a1 := restore_custom_tools env doc.custom_tools a
      { a1 with custom_data := dupdate a1.custom_data doc.custom_data,
                custom_software := dupdate a1.custom_software doc.custom_software }

/-- `PersistentA1.__init__`: fresh container fields, then
`_load_persistent_state`.  Note: `__init__` never writes the state file. -/
def persistentA1_init (env : DecodeEnv) (agent_id : String) (state_dir : List String)
    (auto_save : Bool) (config : AgentConfig) (fs : FS) : PersistentA1 :=
  load_persistent_state env
    { agent_id := agent_id, state_dir := state_dir,
      auto_save_enabled := auto_save, state_dirty := false,
      custom_tools := [], custom_data := [], custom_software := [],
      config := config } fs

/-- `export_state`: the document written to the export path. -/
def export_state (a : PersistentA1) (now : Nat) : ExportedState :=
  { agent_id := a.agent_id, timestamp := now,
    custom_tools := serialize_custom_tools a now,
    custom_data := a.custom_data,
    custom_software := a.custom_software,
    export_version := "1.0" }

/-- The in-memory effect of `import_state` on the container, given the
parsed snapshot (`snap` stands for the successfully read and parsed JSON at
`import_path`; an export always carries all three sections, so the
`'custom_x' in state` guards are true). -/
def import_memory (env : DecodeEnv) (a : PersistentA1) (snap : ExportedState)
    (merge : Bool) : PersistentA1 :=
  let a1 := if merge then a
            else { a with custom_tools := [], custom_data := [], custom_software := [] }
  let a2 := restore_custom_tools env snap.custom_tools a1
  { a2 with
    custom_data :=
      if merge then dupdate a2.custom_data snap.custom_data else snap.custom_data,
    custom_software :=
      if merge then dupdate a2.custom_software snap.custom_software
      else snap.custom_software }

/-- `import_state`: mutate memory per `merge`, then call
`_save_persistent_state`. -/
def import_state (env : DecodeEnv) (a : PersistentA1) (fs : FS) (snap : ExportedState)
    (merge : Bool) (now : Nat) : PersistentA1 × FS :=
  save_persistent_state (import_memory env a snap merge) fs now

/-! ### The mutating hooks (`add_*` / `remove_*`) -/

/-- `add_tool`: record under `api.__name__`, mark dirty, save if auto. -/
def add_tool (a : PersistentA1) (fs : FS) (api : Callable) (now : Nat) :
    PersistentA1 × FS :=
  let a1 := { a with custom_tools := dinsert a.custom_tools api.name api,
                     state_dirty := true }
  if a1.auto_save_enabled then save_persistent_state a1 fs now else (a1, fs)

/-- `add_data`: `_custom_data.update(data)`, mark dirty, save if auto. -/
def add_data (a : PersistentA1) (fs : FS) (data : List (String × String)) (now : Nat) :
    PersistentA1 × FS :=
  let a1 := { a with custom_data := dupdate a.custom_data data, state_dirty := true }
  if a1.auto_save_enabled then save_persistent_state a1 fs now else (a1, fs)

/-- `add_software` (the `install` side effect is external and non-fatal, so
it does not appear in the state). -/
def add_software (a : PersistentA1) (fs : FS) (software : List (String × String))
    (now : Nat) : PersistentA1 × FS :=
  let a1 := { a with custom_software := dupdate a.custom_software software,
                     state_dirty := true }
  if a1.auto_save_enabled then save_persistent_state a1 fs now else (a1, fs)

/-- `remove_custom_tool`: delete if present (else only a warning). -/
def remove_custom_tool (a : PersistentA1) (fs : FS) (tool_name : String) (now : Nat) :
    PersistentA1 × FS :=
  if (dget a.custom_tools tool_name).isSome then
    let a1 := { a with custom_tools := dremove a.custom_tools tool_name,
                       state_dirty := true }
    if a1.auto_save_enabled then save_persistent_state a1 fs now else (a1, fs)
  else (a, fs)

/-- `remove_custom_data`: delete if present. -/
def remove_custom_data (a : PersistentA1) (fs : FS) (data_key : String) (now : Nat) :
    PersistentA1 × FS :=
  if (dget a.custom_data data_key).isSome then
    let a1 := { a with custom_data := dremove a.custom_data data_key,
                       state_dirty := true }
    if a1.auto_save_enabled then save_persistent_state a1 fs now else (a1, fs)
  else (a, fs)

/-! ### GlobalAgentManager

Container identity matters (the uniqueness claim is about instances, not
values), so live containers are kept in a heap `containers` addressed by
handles allocated from `next_handle`; `agents` is the `_agents` dict mapping
agent id to handle.  All agents the manager creates share the state
directory `base_state_dir ++ ["states"]` and its file system `fs`. -/

structure ManagerState where
  agents : List (String × Nat)
  containers : List (Nat × PersistentA1)
  next_handle : Nat
  fs : FS
  base_state_dir : List String
deriving DecidableEq, Repr

def states_dir (ms : ManagerState) : List String := ms.base_state_dir ++ ["states"]

/-- Default construction parameters of the wrapped execution provider
(`getattr` defaults in `_save_persistent_state`). -/
def defaultConfig : AgentConfig :=
  { path := "./data", llm := "claude-3-5-sonnet-20241022",
    use_tool_retriever := true, timeout_seconds := 600 }

/-- `create_agent` (with the default `overwrite=False`): return the existing
container if live, else construct a `PersistentA1` bound to the shared
states directory and register it. -/
def create_agent (env : DecodeEnv) (ms : ManagerState) (agent_id : String) :
    ManagerState × Nat :=
  match dget ms.agents agent_id with
  | some h => (ms, h)
  | none =>
    let h := ms.next_handle
    let c := persistentA1_init env agent_id (states_dir ms) true defaultConfig ms.fs
    ({ ms with agents := dinsert ms.agents agent_id h,
               containers := dinsert ms.containers h c,
               next_handle := h + 1 }, h)

/-- `get_agent`: existing container or `create_agent`. -/
def get_agent (env : DecodeEnv) (ms : ManagerState) (agent_id : String) :
    ManagerState × Nat :=
  match dget ms.agents agent_id with
  | some h => (ms, h)
  | none => create_agent env ms agent_id

/-- The ids contributed by `state_dir.glob("*.json")` (non-recursive: only
files directly in the states directory), mapped through `.stem`. -/
def on_disk_agent_ids (ms : ManagerState) : List String :=
  (ms.fs.filter fun p =>
      decide (p.1.dir = states_dir ms) && decide (p.1.ext = "json")).map
    fun p => p.1.stem

/-- `list_agents`: `sorted(in_memory.union(on_disk))`.  The model returns
the same set as a deduplicated list; the `sorted()` reordering is dropped
because every property below is about membership. -/
def list_agents (ms : ManagerState) : List String :=
  (dkeys ms.agents ++ on_disk_agent_ids ms).dedup

/-- Placeholder container for a heap lookup that cannot miss on the
reachable states considered here (Python would have raised long before). -/
def missingAgent : PersistentA1 :=
  { agent_id := "", state_dir := [], auto_save_enabled := true,
    state_dirty := false, custom_tools := [], custom_data := [],
    custom_software := [], config := defaultConfig }

/-- `clone_agent`: fetch (or silently create!) the source via `get_agent`,
export its state to a temporary file, create the target, import with
`merge=False`.  The temp-file round trip carries `export_state`'s document
unchanged, so it is passed directly. -/
def clone_agent (env : DecodeEnv) (ms : ManagerState)
    (source_agent_id target_agent_id : String) (now : Nat) : ManagerState × Nat :=
  let s :=
    match dget ms.agents source_agent_id with
    | some h => (ms, h)
    | none => get_agent env ms source_agent_id
  let src := (dget s.1.containers s.2).getD missingAgent
  let snap := export_state src now
  let t := create_agent env s.1 target_agent_id
  let tgt := (dget t.1.containers t.2).getD missingAgent
  let r := import_state env tgt t.1.fs snap false now
  ({ t.1 with fs := r.2, containers := dinsert t.1.containers t.2 r.1 }, t.2)

/-! ### Interleaved execution of `get_agent`

`get_agent` has no synchronization, so its read-then-act structure is split
into the atomic steps a thread actually performs against the shared
`ManagerState`: the membership test in `get_agent`, the second membership
test in `create_agent`, the construction of the `PersistentA1` (which
allocates the container and performs file I/O but touches neither `_agents`
nor any state file), and the dict registration. -/

inductive TPhase where
  | start
  | checked1
  | checked2
  | constructed (h : Nat)
  | finished (h : Nat)
deriving DecidableEq, Repr

def tstep (env : DecodeEnv) (agent_id : String) (ms : ManagerState) (ph : TPhase) :
    ManagerState × TPhase :=
  match ph with
  | .start =>
      match dget ms.agents agent_id with
      | some h => (ms, .finished h)
      | none => (ms, .checked1)
  | .checked1 =>
      match dget ms.agents agent_id with
      | some h => (ms, .finished h)
      | none => (ms, .checked2)
  | .checked2 =>
      let h := ms.next_handle
      let c := persistentA1_init env agent_id (states_dir ms) true defaultConfig ms.fs
      ({ ms with containers := dinsert ms.containers h c, next_handle := h + 1 },
       .constructed h)
  | .constructed h =>
      ({ ms with agents := dinsert ms.agents agent_id h }, .finished h)
  | .finished h => (ms, .finished h)

/-- Run two threads, both executing `get_agent(agent_id)`, under a schedule:
`false` steps thread 1, `true` steps thread 2. -/
def runSched (env : DecodeEnv) (agent_id : String) :
    ManagerState → TPhase → TPhase → List Bool → ManagerState × TPhase × TPhase
  | ms, p1, p2, [] => (ms, p1, p2)
  | ms, p1, p2, b :: rest =>
      if b then
        let s := tstep env agent_id ms p2
        runSched env agent_id s.1 p1 s.2 rest
      else
        let s := tstep env agent_id ms p1
        runSched env agent_id s.1 s.2 p2 rest

/-! ### Comparison of state files modulo timestamp fields -/

/-- Drop a capability record's own `timestamp` field. -/
def eraseRecTimestamp (r : ToolRecord) : ToolRecord := { r with timestamp := 0 }

/-- Drop only the top-level `timestamp` field of a state document. -/
def eraseTopTimestamp (s : SavedState) : SavedState := { s with timestamp := 0 }

/-- Drop the top-level `timestamp` and every per-capability `timestamp`. -/
def eraseAllTimestamps (s : SavedState) : SavedState :=
  { s with timestamp := 0,
           custom_tools := s.custom_tools.map fun p => (p.1, eraseRecTimestamp p.2) }

def eraseTopOfContent : FileContent → FileContent
  | .complete s => .complete (eraseTopTimestamp s)
  | .truncatedWrite n s => .truncatedWrite n (eraseTopTimestamp s)

def eraseAllOfContent : FileContent → FileContent
  | .complete s => .complete (eraseAllTimestamps s)
  | .truncatedWrite n s => .truncatedWrite n (eraseAllTimestamps s)

/-! ### Concrete callables, records, environments, agents and registries
used by witnesses and counterexamples -/

def fnDillOk : Callable :=
  { name := "f_dill", doc := some "doc d", module := some "m",
    qualname := some "q.f_dill", dillDump := .ok "BLOB1",
    getsource := .ok "def f_dill(): return 1" }

def fnSrcOnly : Callable :=
  { name := "f_src", doc := none, module := none, qualname := none,
    dillDump := .exn "cannot pickle", getsource := .ok "def f_src(): return 2" }

def fnMetaOnly : Callable :=
  { name := "f_meta", doc := some "doc m", module := none, qualname := none,
    dillDump := .exn "cannot pickle", getsource := .exn "could not get source" }

def fnY2 : Callable :=
  { name := "fy2", doc := none, module := none, qualname := none,
    dillDump := .ok "PY2", getsource := .exn "no source" }

def fnZ2 : Callable :=
  { name := "fz2", doc := none, module := none, qualname := none,
    dillDump := .ok "PZ2", getsource := .exn "no source" }

/-- A decode environment where both external tiers always raise. -/
def envFail : DecodeEnv :=
  { dillLoads := fun _ => .exn "dill failed",
    execSource := fun _ => .exn "exec disabled" }

/-- A decode environment recognising the two payloads `PY2` / `PZ2`. -/
def envC3 : DecodeEnv :=
  { dillLoads := fun s =>
      if s = "PY2" then .ok fnY2 else if s = "PZ2" then .ok fnZ2 else .exn "bad payload",
    execSource := fun _ => .exn "exec disabled" }

def recMetaOnlyEx : ToolRecord :=
  { name := "f_meta", doc := "doc m", module := none, qualname := none,
    serialization_method := .metadata_only, serialized_data := none,
    source_code := none, error := some "could not get source", timestamp := 0 }

def recBadDill : ToolRecord :=
  { name := "g", doc := "", module := none, qualname := none,
    serialization_method := .dill, serialized_data := some "CORRUPT",
    source_code := some none, error := none, timestamp := 0 }

def recY2 : ToolRecord :=
  { name := "fy2", doc := "", module := none, qualname := none,
    serialization_method := .dill, serialized_data := some "PY2",
    source_code := some none, error := none, timestamp := 0 }

def recZ2 : ToolRecord :=
  { name := "fz2", doc := "", module := none, qualname := none,
    serialization_method := .dill, serialized_data := some "PZ2",
    source_code := some none, error := none, timestamp := 0 }

def recZMeta : ToolRecord :=
  { name := "fz", doc := "", module := none, qualname := none,
    serialization_method := .metadata_only, serialized_data := none,
    source_code := none, error := some "could not get source", timestamp := 0 }

def aW : PersistentA1 :=
  { agent_id := "alpha", state_dir := ["data", "agent_states"],
    auto_save_enabled := true, state_dirty := true,
    custom_tools := [("f_dill", fnDillOk)],
    custom_data := [("k1", "dataset one")], custom_software := [],
    config := defaultConfig }

def fsW : FS := [(state_file aW, FileContent.complete (stateDocOf aW 999))]

def aC3 : PersistentA1 :=
  { agent_id := "c3", state_dir := ["data", "agent_states"],
    auto_save_enabled := true, state_dirty := false,
    custom_tools := [("x", fnDillOk), ("y", fnSrcOnly)],
    custom_data := [("dx", "vx")], custom_software := [("sx", "swx")],
    config := defaultConfig }

def snapC3 : ExportedState :=
  { agent_id := "donor", timestamp := 50,
    custom_tools := [("y", recY2), ("z", recZMeta)],
    custom_data := [("dy", "wy")], custom_software := [("sy", "swy")],
    export_version := "1.0" }

def snapC3b : ExportedState :=
  { agent_id := "donor", timestamp := 50,
    custom_tools := [("y", recY2), ("z", recZ2)],
    custom_data := [("dy", "wy")], custom_software := [("sy", "swy")],
    export_version := "1.0" }

def aC4 : PersistentA1 :=
  { agent_id := "c4", state_dir := ["data", "agent_states"],
    auto_save_enabled := false, state_dirty := true,
    custom_tools := [], custom_data := [("old", "d")], custom_software := [],
    config := defaultConfig }

def fsC4 : FS := [(state_file aC4, FileContent.complete (stateDocOf aC4 999))]

def msEmpty : ManagerState :=
  { agents := [], containers := [], next_handle := 0, fs := [],
    base_state_dir := ["data", "agents"] }

def msW : ManagerState :=
  { agents := [("live", 0)], containers := [(0, missingAgent)], next_handle := 1,
    fs := [({ dir := ["data", "agents", "states"], stem := "olddisk", ext := "json" },
            FileContent.complete (stateDocOf aW 10))],
    base_state_dir := ["data", "agents"] }

/-- The racy schedule: thread 1 passes both membership checks and constructs
its container; thread 2 then runs its whole `get_agent` to completion;
thread 1 finally registers, silently replacing thread 2's registration. -/
def schedRace : List Bool := [false, false, false, true, true, true, true, false]

/-! ### Helper lemmas -/

theorem mem_dkeys {κ α : Type} (m : List (κ × α)) (k : κ) :
    k ∈ dkeys m ↔ ∃ v, (k, v) ∈ m := by
  constructor
  · intro h
    obtain ⟨p, hp, hpk⟩ := List.mem_map.mp h
    exact ⟨p.2, by rw [← hpk]; simpa using hp⟩
  · rintro ⟨v, hv⟩
    exact List.mem_map.mpr ⟨(k, v), hv, rfl⟩

theorem save_fst_custom (a : PersistentA1) (fs : FS) (now : Nat) :
    (save_persistent_state a fs now).1.custom_tools = a.custom_tools ∧
    (save_persistent_state a fs now).1.custom_data = a.custom_data ∧
    (save_persistent_state a fs now).1.custom_software = a.custom_software := by
  unfold save_persistent_state
  split <;> simp

theorem save_writes_canonical (b : PersistentA1) (fs : FS) (now : Nat)
    (h : b.auto_save_enabled = true) :
    dget (save_persistent_state b fs now).2 (state_file b)
      = some (FileContent.complete (stateDocOf b now)) := by
  simp [save_persistent_state, h, renameFile, dget_dinsert_self]

theorem save_skip_when_disabled (b : PersistentA1) (fs : FS) (now : Nat)
    (h : b.auto_save_enabled = false) :
    save_persistent_state b fs now = (b, fs) := by
  simp [save_persistent_state, h]

theorem restore_preserves (env : DecodeEnv) (ts : List (String × ToolRecord)) :
    ∀ a : PersistentA1,
      (restore_custom_tools env ts a).custom_data = a.custom_data ∧
      (restore_custom_tools env ts a).custom_software = a.custom_software ∧
      (restore_custom_tools env ts a).agent_id = a.agent_id ∧
      (restore_custom_tools env ts a).state_dir = a.state_dir ∧
      (restore_custom_tools env ts a).auto_save_enabled = a.auto_save_enabled ∧
      (restore_custom_tools env ts a).config = a.config := by
  induction ts with
  | nil => intro a; simp [restore_custom_tools]
  | cons hd tl ih =>
    intro a
    have step : restore_custom_tools env (hd :: tl) a
        = restore_custom_tools env tl
            (match deserialize_function env hd.2 with
             | some func => { a with custom_tools := dinsert a.custom_tools hd.1 func }
             | none => a) := rfl
    rw [step]
    rcases hdec : deserialize_function env hd.2 with _ | f
    · simpa using ih a
    · simpa using ih { a with custom_tools := dinsert a.custom_tools hd.1 f }

theorem import_memory_preserves (env : DecodeEnv) (a : PersistentA1)
    (snap : ExportedState) (merge : Bool) :
    (import_memory env a snap merge).agent_id = a.agent_id ∧
    (import_memory env a snap merge).state_dir = a.state_dir ∧
    (import_memory env a snap merge).auto_save_enabled = a.auto_save_enabled := by
  unfold import_memory
  rcases merge
  · have h := restore_preserves env snap.custom_tools
      { a with custom_tools := [], custom_data := [], custom_software := [] }
    simp only [Bool.false_eq_true, if_false]
    exact ⟨h.2.2.1, h.2.2.2.1, h.2.2.2.2.1⟩
  · have h := restore_preserves env snap.custom_tools a
    simp only [if_true]
    exact ⟨h.2.2.1, h.2.2.2.1, h.2.2.2.2.1⟩

theorem state_file_import_memory (env : DecodeEnv) (a : PersistentA1)
    (snap : ExportedState) (merge : Bool) :
    state_file (import_memory env a snap merge) = state_file a := by
  have h := import_memory_preserves env a snap merge
  simp [state_file, h.1, h.2.1]

/-! ### C2: tiered encoding -/

/-- C2: `serialize_function` tries the strategies in a fixed order and
returns the record of the first one that succeeds: the dill tier when
`dill.dumps` succeeds (payload present); otherwise the source-text tier when
`inspect.getsource` succeeds; otherwise a metadata-only record carrying the
name, the doc, an explicit `error` field with the failure reason, and no
payload of either kind. -/
theorem C2_encode_first_success (func : Callable) (now : Nat) :
    (∀ payload, func.dillDump = .ok payload →
        (serialize_function func now).serialization_method = SerMethod.dill ∧
        (serialize_function func now).serialized_data = some payload ∧
        (serialize_function func now).name = func.name) ∧
    (∀ e src, func.dillDump = .exn e → func.getsource = .ok src →
        (serialize_function func now).serialization_method = SerMethod.source_code ∧
        (serialize_function func now).source_code = some (some src) ∧
        (serialize_function func now).serialized_data = none ∧
        (serialize_function func now).name = func.name) ∧
    (∀ e e2, func.dillDump = .exn e → func.getsource = .exn e2 →
        (serialize_function func now).serialization_method = SerMethod.metadata_only ∧
        (serialize_function func now).name = func.name ∧
        (serialize_function func now).doc = func.doc.getD "" ∧
        (serialize_function func now).error = some e2 ∧
        (serialize_function func now).serialized_data = none ∧
        (serialize_function func now).source_code = none) := by
  refine ⟨?_, ?_, ?_⟩
  · intro payload hp
    simp [serialize_function, hp]
  · intro e src hd hs
    simp [serialize_function, fallback_serialization, hd, hs]
  · intro e e2 hd hs
    simp [serialize_function, fallback_serialization, hd, hs]

theorem C2_encode_first_success_witness :
    ((serialize_function fnDillOk 7).serialization_method = SerMethod.dill ∧
     (serialize_function fnDillOk 7).serialized_data = some "BLOB1") ∧
    ((serialize_function fnSrcOnly 7).serialization_method = SerMethod.source_code ∧
     (serialize_function fnSrcOnly 7).serialized_data = none) ∧
    ((serialize_function fnMetaOnly 7).serialization_method = SerMethod.metadata_only ∧
     (serialize_function fnMetaOnly 7).error = some "could not get source" ∧
     (serialize_function fnMetaOnly 7).serialized_data = none ∧
     (serialize_function fnMetaOnly 7).source_code = none) := by
  have h1 := (C2_encode_first_success fnDillOk 7).1 "BLOB1" rfl
  have h2 := (C2_encode_first_success fnSrcOnly 7).2.1 "cannot pickle"
    "def f_src(): return 2" rfl rfl
  have h3 := (C2_encode_first_success fnMetaOnly 7).2.2 "cannot pickle"
    "could not get source" rfl rfl
  exact ⟨⟨h1.1, h1.2.1⟩, ⟨h2.1, h2.2.2.1⟩, ⟨h3.1, h3.2.2.2.1, h3.2.2.2.2.1, h3.2.2.2.2.2⟩⟩

/-! ### C7: decoding fails closed -/

/-- C7: a `metadata_only` record always decodes to no callable, and
`deserialize_function` never propagates an exception: whenever its body
raises (`.exn`), the catch-all clause turns the outcome into `none`. -/
theorem C7_decode_fails_closed (env : DecodeEnv) (metadata : ToolRecord) :
    (metadata.serialization_method = SerMethod.metadata_only →
        deserialize_function env metadata = none) ∧
    (∀ e, deserialize_function_body env metadata = .exn e →
        deserialize_function env metadata = none) := by
  constructor
  · intro h
    simp [deserialize_function, deserialize_function_body, h]
  · intro e h
    simp [deserialize_function, h]

theorem C7_decode_fails_closed_witness :
    deserialize_function envFail recMetaOnlyEx = none ∧
    deserialize_function envFail recBadDill = none :=
  ⟨(C7_decode_fails_closed envFail recMetaOnlyEx).1 rfl,
   (C7_decode_fails_closed envFail recBadDill).2 "dill failed" (by decide)⟩

/-! ### C10: auto-save disabled means no persistence path writes -/

/-- C10: with `auto_save=False`, the manual `save_state` returns without any
effect (the file system, and the agent together with its dirty flag, are
exactly as before), and every other persistence path — the `add_*` and
`remove_*` hooks and `import_state` — likewise leaves the file system
unchanged, because they all funnel through the gated
`_save_persistent_state`. -/
theorem C10_no_write_without_autosave (a : PersistentA1) (fs : FS) (now : Nat)
    (api : Callable) (data sw : List (String × String)) (tool_name data_key : String)
    (env : DecodeEnv) (snap : ExportedState) (merge : Bool)
    (h : a.auto_save_enabled = false) :
    save_state a fs now = (a, fs) ∧
    (add_tool a fs api now).2 = fs ∧
    (add_data a fs data now).2 = fs ∧
    (add_software a fs sw now).2 = fs ∧
    (remove_custom_tool a fs tool_name now).2 = fs ∧
    (remove_custom_data a fs data_key now).2 = fs ∧
    (import_state env a fs snap merge now).2 = fs := by
  refine ⟨?_, ?_, ?_, ?_, ?_, ?_, ?_⟩
  · simpa [save_state] using save_skip_when_disabled a fs now h
  · simp [add_tool, h]
  · simp [add_data, h]
  · simp [add_software, h]
  · unfold remove_custom_tool
    split <;> simp [h]
  · unfold remove_custom_data
    split <;> simp [h]
  · have hb : (import_memory env a snap merge).auto_save_enabled = false := by
      rw [(import_memory_preserves env a snap merge).2.2, h]
    simp [import_state, save_skip_when_disabled _ fs now hb]

theorem C10_no_write_without_autosave_witness :
    (save_state aC4 fsC4 3 = (aC4, fsC4) ∧ aC4.state_dirty = true) ∧
    (add_tool aC4 fsC4 fnDillOk 3).2 = fsC4 ∧
    (import_state envC3 aC4 fsC4 snapC3b true 3).2 = fsC4 := by
  have h := C10_no_write_without_autosave aC4 fsC4 3 fnDillOk [] [] "t" "d"
    envC3 snapC3b true rfl
  exact ⟨⟨h.1, rfl⟩, h.2.1, h.2.2.2.2.2.2⟩

/-! ### C9: getOrCreate without synchronization -/

/-- C9: the claim asserts that N concurrent `getOrCreate` calls for one
unseen id all receive the same container, with exactly one registered and
exactly one state file afterwards.  `get_agent`/`create_agent` take no lock,
so under the interleaving `schedRace` both threads pass both membership
checks, both construct containers (handles 0 and 1), thread 2 returns
handle 1, and thread 1's registration silently replaces it: the callers
hold different instances, two containers exist, and no state file at all
has been created. -/
theorem C9_race_two_containers :
    (runSched envFail "A" msEmpty .start .start schedRace).2.1 = TPhase.finished 0 ∧
    (runSched envFail "A" msEmpty .start .start schedRace).2.2 = TPhase.finished 1 ∧
    (runSched envFail "A" msEmpty .start .start schedRace).1.agents = [("A", 0)] ∧
    (runSched envFail "A" msEmpty .start .start schedRace).1.containers.length = 2 ∧
    (runSched envFail "A" msEmpty .start .start schedRace).1.fs = [] := by
  decide

/-! ### C5: clone with a missing source -/

/-- C5: the claim asserts `clone(sourceId, targetId)` fails when `sourceId`
has neither a live container nor a durable state file.  On the empty
registry `msEmpty` (no live "ghost", no file), `clone_agent` instead
silently creates a fresh empty "ghost" via `get_agent`, registers it
(handle 0), produces a live target container (handle 1) cloned from that
empty source, and writes a state file only for the target. -/
theorem C5_clone_missing_source_succeeds :
    msEmpty.agents = [] ∧ msEmpty.fs = [] ∧
    (clone_agent envFail msEmpty "ghost" "tgt" 0).2 = 1 ∧
    dget (clone_agent envFail msEmpty "ghost" "tgt" 0).1.agents "ghost" = some 0 ∧
    dget (clone_agent envFail msEmpty "ghost" "tgt" 0).1.agents "tgt" = some 1 ∧
    ((dget (clone_agent envFail msEmpty "ghost" "tgt" 0).1.containers 1).getD
        missingAgent).custom_tools = [] ∧
    ((dget (clone_agent envFail msEmpty "ghost" "tgt" 0).1.containers 1).getD
        missingAgent).custom_data = [] ∧
    dget (clone_agent envFail msEmpty "ghost" "tgt" 0).1.fs
        { dir := ["data", "agents", "states"], stem := "ghost", ext := "json" } = none ∧
    (dget (clone_agent envFail msEmpty "ghost" "tgt" 0).1.fs
        { dir := ["data", "agents", "states"], stem := "tgt", ext := "json" }).isSome
      = true := by
  decide

/-! ### C6: list is the union of live and on-disk ids -/

theorem mem_on_disk_ids (ms : ManagerState) (agent_id : String) :
    agent_id ∈ on_disk_agent_ids ms ↔
      ∃ c, (({ dir := states_dir ms, stem := agent_id, ext := "json" } : FPath), c)
        ∈ ms.fs := by
  unfold on_disk_agent_ids
  constructor
  · intro h
    obtain ⟨p, hp, hstem⟩ := List.mem_map.mp h
    obtain ⟨hmem, hpred⟩ := List.mem_filter.mp hp
    obtain ⟨⟨pdir, pstem, pext⟩, pc⟩ := p
    simp only [Bool.and_eq_true, decide_eq_true_eq] at hpred
    obtain ⟨hdir, hext⟩ := hpred
    simp only at hstem
    subst hdir hext hstem
    exact ⟨pc, hmem⟩
  · rintro ⟨c, hc⟩
    exact List.mem_map.mpr
      ⟨({ dir := states_dir ms, stem := agent_id, ext := "json" }, c),
       List.mem_filter.mpr ⟨hc, by simp⟩, rfl⟩

/-- C6: `list_agents` contains an id exactly when it is a live in-memory
agent or a `*.json` state file with that stem sits directly in the durable
states directory — so an agent persisted by a previous process appears with
no prior load. -/
theorem C6_list_union (ms : ManagerState) (agent_id : String) :
    agent_id ∈ list_agents ms ↔
      ((∃ h, (agent_id, h) ∈ ms.agents) ∨
       (∃ c, (({ dir := states_dir ms, stem := agent_id, ext := "json" } : FPath), c)
          ∈ ms.fs)) := by
  unfold list_agents
  rw [List.mem_dedup, List.mem_append, mem_dkeys, mem_on_disk_ids]

theorem C6_list_union_witness :
    "olddisk" ∈ list_agents msW ∧ "live" ∈ list_agents msW :=
  ⟨(C6_list_union msW "olddisk").mpr
      (Or.inr ⟨FileContent.complete (stateDocOf aW 10), by decide⟩),
   (C6_list_union msW "live").mpr (Or.inl ⟨0, by decide⟩)⟩

/-! ### C8: idempotent persistence modulo timestamps -/

theorem eraseRec_serialize (f : Callable) (t1 t2 : Nat) :
    eraseRecTimestamp (serialize_function f t1)
      = eraseRecTimestamp (serialize_function f t2) := by
  cases hd : f.dillDump <;> cases hs : f.getsource <;>
    simp [serialize_function, fallback_serialization, eraseRecTimestamp, hd, hs]

theorem map_eraseRec_serialize (ts : List (String × Callable)) (t1 t2 : Nat) :
    ts.map (fun p => (p.1, eraseRecTimestamp (serialize_function p.2 t1)))
      = ts.map (fun p => (p.1, eraseRecTimestamp (serialize_function p.2 t2))) := by
  induction ts with
  | nil => rfl
  | cons hd tl ih => simp only [List.map_cons, ih, eraseRec_serialize hd.2 t1 t2]

theorem eraseAll_stateDoc (a : PersistentA1) (t1 t2 : Nat) :
    eraseAllTimestamps (stateDocOf a t1) = eraseAllTimestamps (stateDocOf a t2) := by
  simp only [eraseAllTimestamps, stateDocOf, serialize_custom_tools, List.map_map]
  rw [show ((fun p => (p.1, eraseRecTimestamp p.2))
        ∘ fun p : String × Callable => (p.1, serialize_function p.2 t1))
      = fun p : String × Callable => (p.1, eraseRecTimestamp (serialize_function p.2 t1))
      from rfl]
  rw [show ((fun p => (p.1, eraseRecTimestamp p.2))
        ∘ fun p : String × Callable => (p.1, serialize_function p.2 t2))
      = fun p : String × Callable => (p.1, eraseRecTimestamp (serialize_function p.2 t2))
      from rfl]
  rw [map_eraseRec_serialize a.custom_tools t1 t2]

/-- C8 as stated is false: each capability record is re-serialized with a
fresh per-record `timestamp` on every save, so two saves of the unchanged
agent `aW` (which has one dill-serializable tool) differ even after the
top-level `timestamp` field is excluded. -/
theorem C8_counterexample :
    Option.map eraseTopOfContent
        (dget (save_persistent_state aW [] 0).2 (state_file aW))
      ≠ Option.map eraseTopOfContent
          (dget (save_persistent_state (save_persistent_state aW [] 0).1
                   (save_persistent_state aW [] 0).2 1).2
            (state_file aW)) := by
  decide

/-- C8 amended: calling `save` twice in a row with no intervening mutation
produces state files that are byte-identical once the top-level `timestamp`
field AND the per-capability-record `timestamp` fields are excluded (the
nested timestamps are refreshed by `serialize_function` on every save). -/
theorem C8_save_idem_mod_timestamps (a : PersistentA1) (fs : FS) (t1 t2 : Nat) :
    Option.map eraseAllOfContent
        (dget (save_persistent_state a fs t1).2 (state_file a))
      = Option.map eraseAllOfContent
          (dget (save_persistent_state (save_persistent_state a fs t1).1
                   (save_persistent_state a fs t1).2 t2).2
            (state_file (save_persistent_state a fs t1).1)) := by
  cases ha : a.auto_save_enabled
  · rw [save_skip_when_disabled a fs t1 ha, save_skip_when_disabled a fs t2 ha]
  · have h1 : (save_persistent_state a fs t1).1 = { a with state_dirty := false } := by
      simp [save_persistent_state, ha]
    have hsf : state_file (save_persistent_state a fs t1).1 = state_file a := by
      rw [h1]; rfl
    have ha2 : (save_persistent_state a fs t1).1.auto_save_enabled = true := by
      rw [h1]; exact ha
    rw [hsf, save_writes_canonical a fs t1 ha]
    rw [show state_file a = state_file (save_persistent_state a fs t1).1 from hsf.symm,
        save_writes_canonical _ _ t2 ha2]
    have hdoc : stateDocOf (save_persistent_state a fs t1).1 t2 = stateDocOf a t2 := by
      rw [h1]; rfl
    rw [hdoc]
    simp [eraseAllOfContent, eraseAll_stateDoc a t1 t2]

/-! ### C4: import triggers a canonical save -/

/-- C4 as stated ("regardless of its auto-persist setting") is false: on
`aC4`, which has `auto_save=False`, `import_state` updates the in-memory
maps (the call succeeds) yet the canonical state file on disk is left
byte-for-byte unchanged, because `_save_persistent_state` returns
immediately when auto-save is disabled. -/
theorem C4_counterexample :
    aC4.auto_save_enabled = false ∧
    (import_state envC3 aC4 fsC4 snapC3b true 5).2 = fsC4 ∧
    (import_state envC3 aC4 fsC4 snapC3b true 5).1.custom_data ≠ aC4.custom_data := by
  decide

/-- C4 amended: for an agent with auto-persist enabled, a successful
`import_state` writes the canonical state file (reflecting the imported
in-memory state) before returning; with auto-persist disabled it leaves the
file system untouched. -/
theorem C4_import_saves_when_auto (env : DecodeEnv) (a : PersistentA1) (fs : FS)
    (snap : ExportedState) (merge : Bool) (now : Nat) :
    (a.auto_save_enabled = true →
      dget (import_state env a fs snap merge now).2 (state_file a)
        = some (FileContent.complete
            (stateDocOf (import_memory env a snap merge) now))) ∧
    (a.auto_save_enabled = false →
      (import_state env a fs snap merge now).2 = fs) := by
  constructor
  · intro h
    have hb : (import_memory env a snap merge).auto_save_enabled = true := by
      rw [(import_memory_preserves env a snap merge).2.2, h]
    have := save_writes_canonical (import_memory env a snap merge) fs now hb
    rw [state_file_import_memory env a snap merge] at this
    exact this
  · intro h
    have hb : (import_memory env a snap merge).auto_save_enabled = false := by
      rw [(import_memory_preserves env a snap merge).2.2, h]
    simp [import_state, save_skip_when_disabled _ fs now hb]

theorem C4_import_saves_when_auto_witness :
    dget (import_state envC3 aC3 [] snapC3b true 0).2 (state_file aC3)
      = some (FileContent.complete (stateDocOf (import_memory envC3 aC3 snapC3b true) 0)) ∧
    (import_state envC3 aC4 fsC4 snapC3b true 5).2 = fsC4 :=
  ⟨(C4_import_saves_when_auto envC3 aC3 [] snapC3b true 0).1 rfl,
   (C4_import_saves_when_auto envC3 aC4 fsC4 snapC3b true 5).2 rfl⟩

/-! ### C3: merge vs. replace import -/

/-- C3 as stated is false for capability entries: `_restore_custom_tools`
silently drops any imported record that fails to decode.  With in-memory
tool keys `x, y` and a snapshot holding `y` (decodable) and `z` (a
`metadata_only` record), `merge=true` yields keys `x, y` — not
`x, y, z` — and `merge=false` yields `y` alone, although the snapshot does
contain key `z`. -/
theorem C3_counterexample :
    dkeys (import_state envC3 aC3 [] snapC3 true 0).1.custom_tools = ["x", "y"] ∧
    "z" ∈ dkeys snapC3.custom_tools ∧
    dkeys (import_state envC3 aC3 [] snapC3 false 0).1.custom_tools = ["y"] := by
  decide

/-- C3 amended: with in-memory keys `x, y` and an imported snapshot with
keys `y (as y2), z`, `import_state(merge=true)` yields exactly
`x, y2, z` (the imported value winning the collision) and
`import_state(merge=false)` yields exactly `y2, z` — provided every
imported capability record decodes successfully (records that fail to
decode are silently dropped); data and software references merge/replace
unconditionally exactly as the claim states. -/
theorem C3_import_merge_replace (env : DecodeEnv) (a : PersistentA1) (fs : FS)
    (now : Nat) (kx ky kz : String) (fx fy fy2 fz : Callable) (ry rz : ToolRecord)
    (snap : ExportedState)
    (hxy : kx ≠ ky) (hxz : kx ≠ kz) (hyz : ky ≠ kz)
    (htools : a.custom_tools = [(kx, fx), (ky, fy)])
    (hsnap : snap.custom_tools = [(ky, ry), (kz, rz)])
    (hry : deserialize_function env ry = some fy2)
    (hrz : deserialize_function env rz = some fz) :
    (import_state env a fs snap true now).1.custom_tools
        = [(kx, fx), (ky, fy2), (kz, fz)] ∧
    (import_state env a fs snap false now).1.custom_tools = [(ky, fy2), (kz, fz)] ∧
    (import_state env a fs snap true now).1.custom_data
        = dupdate a.custom_data snap.custom_data ∧
    (import_state env a fs snap false now).1.custom_data = snap.custom_data ∧
    (import_state env a fs snap true now).1.custom_software
        = dupdate a.custom_software snap.custom_software ∧
    (import_state env a fs snap false now).1.custom_software = snap.custom_software := by
  have hmemT : (import_memory env a snap true).custom_tools
      = [(kx, fx), (ky, fy2), (kz, fz)] := by
    simp only [import_memory, if_true, restore_custom_tools, hsnap, List.foldl_cons,
      List.foldl_nil, hry, hrz, htools]
    simp [dinsert, hxy, hxz, hyz]
  have hmemF : (import_memory env a snap false).custom_tools = [(ky, fy2), (kz, fz)] := by
    simp only [import_memory, Bool.false_eq_true, if_false, restore_custom_tools, hsnap,
      List.foldl_cons, List.foldl_nil, hry, hrz]
    simp [dinsert, hyz]
  have hdataT : (import_memory env a snap true).custom_data
      = dupdate a.custom_data snap.custom_data := by
    have hp := restore_preserves env snap.custom_tools a
    simp [import_memory, hp.1]
  have hdataF : (import_memory env a snap false).custom_data = snap.custom_data := by
    simp [import_memory]
  have hswT : (import_memory env a snap true).custom_software
      = dupdate a.custom_software snap.custom_software := by
    have hp := restore_preserves env snap.custom_tools a
    simp [import_memory, hp.2.1]
  have hswF : (import_memory env a snap false).custom_software = snap.custom_software := by
    simp [import_memory]
  exact ⟨(save_fst_custom (import_memory env a snap true) fs now).1.trans hmemT,
         (save_fst_custom (import_memory env a snap false) fs now).1.trans hmemF,
         (save_fst_custom (import_memory env a snap true) fs now).2.1.trans hdataT,
         (save_fst_custom (import_memory env a snap false) fs now).2.1.trans hdataF,
         (save_fst_custom (import_memory env a snap true) fs now).2.2.trans hswT,
         (save_fst_custom (import_memory env a snap false) fs now).2.2.trans hswF⟩

theorem C3_import_merge_replace_witness :
    (import_state envC3 aC3 [] snapC3b true 0).1.custom_tools
        = [("x", fnDillOk), ("y", fnY2), ("z", fnZ2)] ∧
    (import_state envC3 aC3 [] snapC3b false 0).1.custom_tools
        = [("y", fnY2), ("z", fnZ2)] ∧
    (import_state envC3 aC3 [] snapC3b true 0).1.custom_data
        = [("dx", "vx"), ("dy", "wy")] := by
  have h := C3_import_merge_replace envC3 aC3 [] 0 "x" "y" "z" fnDillOk fnSrcOnly
    fnY2 fnZ2 recY2 recZ2 snapC3b (by decide) (by decide) (by decide) rfl rfl
    (by decide) (by decide)
  exact ⟨h.1, h.2.1, h.2.2.1.trans (by decide)⟩

/-! ### C1: atomic save -/

theorem state_file_ne_temp_file (a : PersistentA1) : state_file a ≠ temp_file a := by
  intro h
  have hx : "json" = "tmp" := congrArg FPath.ext h
  exact absurd hx (by decide)

theorem runSaveOps_append (fs : FS) (l1 l2 : List SaveOp) :
    runSaveOps fs (l1 ++ l2) = runSaveOps (runSaveOps fs l1) l2 := by
  simp [runSaveOps, List.foldl_append]

theorem runSaveOps_writes_other (tp q : FPath) (hq : q ≠ tp) :
    ∀ ops : List SaveOp, (∀ op ∈ ops, ∃ c, op = SaveOp.writeChunk tp c) →
      ∀ fs : FS, dget (runSaveOps fs ops) q = dget fs q := by
  intro ops
  induction ops with
  | nil => intro _ fs; rfl
  | cons hd tl ih =>
    intro hops fs
    obtain ⟨c, rfl⟩ := hops hd (by simp)
    have htl : ∀ op ∈ tl, ∃ c, op = SaveOp.writeChunk tp c :=
      fun op h => hops op (List.mem_cons_of_mem _ h)
    calc dget (runSaveOps fs (SaveOp.writeChunk tp c :: tl)) q
        = dget (runSaveOps (dinsert fs tp c) tl) q := rfl
      _ = dget (dinsert fs tp c) q := ih htl (dinsert fs tp c)
      _ = dget fs q := dget_dinsert_ne fs tp q c hq

theorem take_saveOps_writes (a : PersistentA1) (now chunks k : Nat)
    (hk : k < (saveOps a now chunks).length) :
    ∀ op ∈ (saveOps a now chunks).take k,
      ∃ c, op = SaveOp.writeChunk (temp_file a) c := by
  intro op hop
  by_cases ha : a.auto_save_enabled = true
  · simp only [saveOps, ha, if_true] at hop hk
    have hkle : k ≤ chunks + 1 := by
      simp only [List.length_append, List.length_map, List.length_range,
        List.length_singleton] at hk
      omega
    rw [List.take_append_of_le_length (by simpa using hkle)] at hop
    have hop2 := List.take_subset k _ hop
    obtain ⟨i, _, rfl⟩ := List.mem_map.mp hop2
    exact ⟨_, rfl⟩
  · simp only [saveOps, ha, if_false] at hop
    simp at hop

/-- C1: interrupting `_save_persistent_state` at any point before the final
atomic rename leaves the canonical state file byte-for-byte unchanged (every
micro-step up to the rename writes only the `.tmp` sibling); running the
whole operation (auto-save enabled) leaves the canonical file holding the
complete serialized document; and at every cut point a subsequent load sees
either the previous content or the complete new document — never a
truncated write. -/
theorem C1_save_atomic (a : PersistentA1) (fs : FS) (now chunks k : Nat) :
    (k < (saveOps a now chunks).length →
      dget (runSaveOps fs ((saveOps a now chunks).take k)) (state_file a)
        = dget fs (state_file a)) ∧
    (a.auto_save_enabled = true →
      dget (runSaveOps fs (saveOps a now chunks)) (state_file a)
        = some (FileContent.complete (stateDocOf a now))) ∧
    (dget (runSaveOps fs ((saveOps a now chunks).take k)) (state_file a)
        = dget fs (state_file a) ∨
     dget (runSaveOps fs ((saveOps a now chunks).take k)) (state_file a)
        = some (FileContent.complete (stateDocOf a now))) := by
  have hpre : k < (saveOps a now chunks).length →
      dget (runSaveOps fs ((saveOps a now chunks).take k)) (state_file a)
        = dget fs (state_file a) := fun hk =>
    runSaveOps_writes_other (temp_file a) (state_file a) (state_file_ne_temp_file a)
      _ (take_saveOps_writes a now chunks k hk) fs
  have hfull : a.auto_save_enabled = true →
      dget (runSaveOps fs (saveOps a now chunks)) (state_file a)
        = some (FileContent.complete (stateDocOf a now)) := by
    intro ha
    have hsplit : saveOps a now chunks
        = ((List.range chunks).map (fun i =>
              SaveOp.writeChunk (temp_file a)
                (if i = chunks then FileContent.complete (stateDocOf a now)
                 else FileContent.truncatedWrite i (stateDocOf a now)))
            ++ [SaveOp.writeChunk (temp_file a)
                  (FileContent.complete (stateDocOf a now))])
          ++ [SaveOp.renameStep (temp_file a) (state_file a)] := by
      simp [saveOps, ha, List.range_succ]
    rw [hsplit, runSaveOps_append, runSaveOps_append]
    simp [runSaveOps, applySaveOp, renameFile, dget_dinsert_self]
  refine ⟨hpre, hfull, ?_⟩
  by_cases hk : k < (saveOps a now chunks).length
  · exact Or.inl (hpre hk)
  · push_neg at hk
    rw [List.take_of_length_le hk]
    by_cases ha : a.auto_save_enabled = true
    · exact Or.inr (hfull ha)
    · have hfalse : a.auto_save_enabled = false := by
        revert ha; cases a.auto_save_enabled <;> simp
      have hnil : saveOps a now chunks = [] := by simp [saveOps, hfalse]
      rw [hnil]
      exact Or.inl rfl

theorem C1_save_atomic_witness :
    (2 < (saveOps aW 3 1).length ∧
     dget (runSaveOps fsW ((saveOps aW 3 1).take 2)) (state_file aW)
        = dget fsW (state_file aW)) ∧
    (aW.auto_save_enabled = true ∧
     dget (runSaveOps fsW (saveOps aW 3 1)) (state_file aW)
        = some (FileContent.complete (stateDocOf aW 3))) :=
  ⟨⟨by decide, (C1_save_atomic aW fsW 3 1 2).1 (by decide)⟩,
   ⟨rfl, (C1_save_atomic aW fsW 3 1 2).2.1 rfl⟩⟩

end Spec2Proof
